import Mathlib

/-!
# Shallow embedding of the pin-dl board downloader (src/src/__init__.py)

Each Python function relevant to the frozen claims is translated into a
Lean definition.  Python exceptions become an explicit error type
(`PyError`); the network and the filesystem become explicit function
parameters (`net : String → List String` mapping a URL to the decoded
lines of its response, a feed `server`, and a `pathExists` predicate);
the side effects of `fetch_board` become an explicit trace of `Effect`s.
JSON dictionaries become structures holding exactly the fields the code
reads; key *presence* is an outer `Option`, JSON *null* for the `videos`
field (the one field the code tests with `is None`) is an inner `Option`.
-/

/-- Python exceptions raised by the translated code paths. -/
inductive PyError where
  /-- `KeyError`: subscripting a dict with a missing key. -/
  | keyError : PyError
  /-- `ValueError(msg)`. -/
  | valueError : String → PyError
  /-- `UserBoardException(msg)` (defined at the top of `__init__.py`). -/
  | userBoardException : String → PyError
deriving DecidableEq, Repr

/-- A filesystem error raised by `os.makedirs`; all of these are
subclasses of Python's `OSError`.  `fileExists` is the
"directory already exists" case, the others are genuinely distinct
failures (insufficient permissions, I/O failure). -/
inductive OSErrorKind where
  | fileExists : OSErrorKind
  | permissionDenied : OSErrorKind
  | ioError : OSErrorKind
deriving DecidableEq, Repr

/-- `Board` (class `Board`, `__init__.py` lines 21–31). -/
structure Board where
  id : String
  url : String
  owner : String
  name : String
deriving DecidableEq, Repr

/-- The `owner` sub-object of a raw board record (`i["owner"]["username"]`). -/
structure BoardOwner where
  username : String
deriving DecidableEq, Repr

/-- One raw board record as read by `user_profile_board_resource`:
the code subscripts exactly the keys `id`, `url`, `owner.username`, `name`. -/
structure RawBoardRecord where
  id : String
  url : String
  owner : BoardOwner
  name : String
deriving DecidableEq, Repr

/-- The `data` payload handed to `user_profile_board_resource`.  The code
first checks `isinstance(data_items, list)`; any non-list python value
(None, dict, string, …) is collapsed into the `other` constructor since
the code rejects them all identically before inspecting them. -/
inductive BoardData where
  | list : List RawBoardRecord → BoardData
  | other : BoardData
deriving DecidableEq, Repr

/-- `user_profile_board_resource` (lines 61–81): raises
`ValueError("Wrong object provided")` on a non-list, otherwise maps each
record `i` to a `Board` with `id ← i["id"]`, `url ← i["url"]`,
`owner ← i["owner"]["username"]`, `name ← i["name"]`, preserving order. -/
def user_profile_board_resource (data_items : BoardData) : Except PyError (List Board) :=
  match data_items with
  | .other => .error (.valueError "Wrong object provided")
  | .list items =>
      .ok (items.map fun i => { id := i.id, url := i.url, owner := i.owner.username, name := i.name })

/-- The slice of `UserProfileResources` that `user_boards` consumes after
`get_page_data`: the page-level `error` field and the
`UserProfileBoardResource.data` payload. -/
structure PageStateResult where
  boardData : BoardData
  error : Option String
deriving DecidableEq, Repr

/-- `user_boards` (lines 116–135), with the already-fetched page state as
input: raise `UserBoardException(error)` when the page carries an error;
otherwise parse the board data, return it when non-empty, and raise
`UserBoardException("User does not have any boards")` when empty. -/
def user_boards (data : PageStateResult) : Except PyError (List Board) :=
  match data.error with
  | some e => .error (.userBoardException e)
  | none => do
      let boards ← user_profile_board_resource data.boardData
      if boards.length > 0 then
        return boards
      else
        .error (.userBoardException "User does not have any boards")

/-- `DownloadableResourceType` (lines 34–36). -/
inductive DownloadableResourceType where
  | image : DownloadableResourceType
  | video : DownloadableResourceType
deriving DecidableEq, Repr

/-- `DownloadableResource` (lines 39–42). -/
structure DownloadableResource where
  type : DownloadableResourceType
  id : String
  url : String
deriving DecidableEq, Repr

/-- `res["images"]["orig"]` sub-object: the code reads only `url`. -/
structure OrigImage where
  url : String
deriving DecidableEq, Repr

/-- `res["images"]` sub-object: the code reads only `orig`. -/
structure Images where
  orig : OrigImage
deriving DecidableEq, Repr

/-- `res["videos"]["video_list"]["V_HLSV4"]` sub-object: the code reads
only `url`. -/
structure HlsVariant where
  url : String
deriving DecidableEq, Repr

/-- `res["videos"]["video_list"]` sub-object: the code reads only the
`V_HLSV4` entry. -/
structure VideoList where
  V_HLSV4 : HlsVariant
deriving DecidableEq, Repr

/-- `res["videos"]` sub-object (when present and non-null). -/
structure Videos where
  video_list : VideoList
deriving DecidableEq, Repr

/-- One raw feed item, holding exactly the keys `get_download_links`
inspects.  `images = none` means the `images` key is absent (the code
only ever tests it with `"images" in res`).  For `videos` the code
distinguishes key absence (`"videos" in res`) from a present-but-null
value (`res["videos"] is None`), so `videos : Option (Option Videos)`:
`none` = key absent, `some none` = key present with value `null`,
`some (some v)` = key present with a video object. -/
structure RawItem where
  id : String
  images : Option Images
  videos : Option (Option Videos)
deriving DecidableEq, Repr

/-- The classification of ONE raw feed item — the body of the `for res
in resources` loop of `get_download_links` (lines 173–190).  Branch 1:
`if ("images" in res) and (res["videos"] is None)` — note that when the
`images` key is present, `res["videos"]` is evaluated unconditionally,
so a missing `videos` key raises `KeyError` there.  Branch 2:
`if "videos" in res and (res["videos"] is not None)`.  Both branches are
independent `if`s, each appending one resource. -/
def classifyItem (res : RawItem) : Except PyError (List DownloadableResource) := do
  let fromImages ←
    match res.images with
    | none => pure []
    | some imgs =>
        match res.videos with
        | none => Except.error PyError.keyError
        | some none =>
            pure [{ type := .image, id := res.id, url := imgs.orig.url }]
        | some (some _) => pure []
  let fromVideos :=
    match res.videos with
    | some (some v) =>
        [{ type := DownloadableResourceType.video, id := res.id,
           url := v.video_list.V_HLSV4.url }]
    | _ => []
  return fromImages ++ fromVideos

/-- The whole classification loop of `get_download_links` (lines
172–192): accumulate over all paginated resources; the first uncaught
`KeyError` aborts the function. -/
def classifyAll (resources : List RawItem) : Except PyError (List DownloadableResource) := do
  let lists ← resources.mapM classifyItem
  return lists.flatten

/-- One page of the `BoardFeedResource` response, holding the two fields
`get_download_links` reads: `resource_response.data` and
`resource.options.bookmarks[0]`. -/
structure FeedPage where
  data : List RawItem
  bookmark : String
deriving Repr

/-- The `bookmarks` entry actually placed in the request options:
`if bookmark:` is Python truthiness, so both `None` and the empty
string omit the `bookmarks` key (lines 155–158). -/
def bookmarkOptions (bookmark : Option String) : Option String :=
  match bookmark with
  | none => none
  | some b => if b = "" then none else some b

/-- The pagination loop of `get_download_links` (lines 146–170),
with the feed server abstracted as a function from the request's
`bookmarks` option to a response page, and an explicit fuel bound
(the Python loop is unbounded; `none` means the loop was still running
after `fuel` iterations).  On success returns the accumulated raw items
together with the number of requests issued. -/
def paginateAux (server : Option String → FeedPage) :
    Nat → Option String → List RawItem → Option (List RawItem × Nat)
  | 0, _, _ => none
  | fuel + 1, bookmark, acc =>
      if bookmark = some "-end-" then
        some (acc, 0)
      else
        let page := server (bookmarkOptions bookmark)
        match paginateAux server fuel (some page.bookmark) (acc ++ page.data) with
        | none => none
        | some (res, n) => some (res, n + 1)

/-- `get_download_links` (lines 138–192): paginate the board feed, then
classify every accumulated raw item.  `none` = the while loop exceeded
the fuel bound. -/
def get_download_links (server : Option String → FeedPage) (fuel : Nat) :
    Option (Except PyError (List DownloadableResource)) :=
  match paginateAux server fuel none [] with
  | none => none
  | some (resources, _) => some (classifyAll resources)

/-- Python `s.split(sep)` for a one-character separator, on the
character list of `s`: cut at every occurrence of `sep`, keeping empty
pieces (so the result is never the empty list). -/
def splitCharAux (sep : Char) : List Char → List Char → List (List Char)
  | [], acc => [acc.reverse]
  | c :: cs, acc =>
      if c = sep then acc.reverse :: splitCharAux sep cs []
      else splitCharAux sep cs (c :: acc)

/-- Python `url.split(sep)` for the one-character separators the code
uses (`"/"` and `"."`). -/
def pySplit (sep : Char) (s : String) : List String :=
  (splitCharAux sep s.data []).map String.mk

/-- Python `sep.join(parts)` for the one-character separator `"/"`. -/
def pyJoin (sep : Char) (parts : List String) : String :=
  String.mk (List.intercalate [sep] (parts.map String.data))

/-- Python `s.endswith(suffix)`. -/
def pyEndsWith (s suffix : String) : Bool :=
  List.isSuffixOf suffix.data s.data

/-- `splitted_url[-1] = seg` on a Python `url.split("/")` result:
Python `split` always returns a non-empty list, so the `[-1]`
assignment replaces the final element. -/
def setLastSegment (parts : List String) (seg : String) : List String :=
  parts.dropLast ++ [seg]

/-- Replace the final `/`-separated path segment of `url` by `seg`
(lines 232–234 and 244–246 both perform exactly this
`split` / `[-1] =` / `join` sequence). -/
def replaceLastSegment (url : String) (seg : String) : String :=
  pyJoin '/' (setLastSegment (pySplit '/' url) seg)

/-- The first scan of `get_stream_urls` (lines 221–230): start with
`best_quality = ""`; every non-empty line ending in `"m3u8"` overwrites
it, so the final value is the LAST such line (or `""` when none). -/
def best_quality (lines : List String) : String :=
  lines.foldl
    (fun bq decoded_url =>
      if decoded_url = "" ∨ ¬ pyEndsWith decoded_url "m3u8" then bq else decoded_url)
    ""

/-- The second scan of `get_stream_urls` (lines 239–246): for every
non-empty line ending in `"ts"`, append the variant URL with its final
path segment replaced by that line, preserving order. -/
def segment_urls (variantUrl : String) (lines : List String) : List String :=
  lines.foldl
    (fun acc decoded_url =>
      if decoded_url = "" ∨ ¬ pyEndsWith decoded_url "ts" then acc
      else acc ++ [replaceLastSegment variantUrl decoded_url])
    []

/-- `get_stream_urls` (lines 215–248), with the network abstracted as
`net : String → List String` (URL ↦ decoded response lines): pick the
last manifest line, rebuild the URL (the Python code rebinds `url` to
the variant URL at line 234, which the second scan then reuses), and
collect the segment URLs.  Note the function is total: no error is ever
raised, even when no line ends in `"m3u8"`. -/
def get_stream_urls (url : String) (net : String → List String) : List String :=
  let variantUrl := replaceLastSegment url (best_quality (net url))
  segment_urls variantUrl (net variantUrl)

/-- `make_dir` (lines 361–368), with the outcome of `os.makedirs`
supplied as a parameter: `try: os.makedirs(directory) except OSError:
pass` turns EVERY `OSError` into a silent success. -/
def make_dir (makedirsOutcome : Except OSErrorKind Unit) : Except OSErrorKind Unit :=
  match makedirsOutcome with
  | .ok _ => .ok ()
  | .error _ => .ok ()

/-- One observable action of `fetch_board`: a directory creation or a
media fetch. -/
inductive Effect where
  | mkdir : String → Effect
  | fetchImage : (url : String) → (save_path : String) → Effect
  | fetchVideo : (url : String) → (save_path : String) → Effect
deriving DecidableEq, Repr

/-- `resource.url.split(".")[-1]` — the extension taken from the image
URL (line 304).  Python `split` never returns an empty list, so the
default of `getD` is never used. -/
def ext_of (url : String) : String :=
  ((pySplit '.' url).getLast?).getD ""

/-- The destination path `fetch_board` computes for a resource:
`os.path.join(save_folder, f"{id}.{ext}")` for images (lines 304–306)
and `os.path.join(save_folder, f"{id}.ts")` for videos (lines 314–315).
`os.path.join` is modelled as `/`-concatenation (the save folder never
ends in a separator in this program). -/
def save_path_for (save_folder : String) (r : DownloadableResource) : String :=
  match r.type with
  | .image => save_folder ++ "/" ++ r.id ++ "." ++ ext_of r.url
  | .video => save_folder ++ "/" ++ r.id ++ ".ts"

/-- The body of the `for resource in links_with_progress` loop of
`fetch_board` (lines 301–320): two independent `if`s on the resource
type; each, when the destination does not exist or `force_download` is
set, performs `make_dir(save_folder)` then the fetch. -/
def fetch_board_step (save_folder : String) (force_download : Bool)
    (pathExists : String → Bool) (resource : DownloadableResource) : List Effect :=
  (if resource.type = DownloadableResourceType.image then
     let save_path := save_path_for save_folder resource
     if ¬ pathExists save_path ∨ force_download then
       [Effect.mkdir save_folder, Effect.fetchImage resource.url save_path]
     else []
   else []) ++
  (if resource.type = DownloadableResourceType.video then
     let save_path := save_path_for save_folder resource
     if ¬ pathExists save_path ∨ force_download then
       [Effect.mkdir save_folder, Effect.fetchVideo resource.url save_path]
     else []
   else [])

/-- `fetch_board` (lines 276–320), with the filesystem abstracted as
`pathExists` and the performed actions returned as a trace.  Result =
(trace of effects performed, raised exception if any).  The guards run
before any effect: `if not links` (a list is falsy iff empty) raises
`ValueError("Links parameter cannot be empty")`, then `if not
save_folder` (a string is falsy iff empty) raises `ValueError("Folder
parameter is empty")`; the `isinstance(links, list)` check cannot fire
here because `links` is a list by construction. -/
def fetch_board (links : List DownloadableResource) (save_folder : String)
    (force_download : Bool) (pathExists : String → Bool) :
    List Effect × Option PyError :=
  if links = [] then
    ([], some (.valueError "Links parameter cannot be empty"))
  else if save_folder = "" then
    ([], some (.valueError "Folder parameter is empty"))
  else
    (links.foldl (fun acc r => acc ++ fetch_board_step save_folder force_download pathExists r) [],
     none)

/-- A manifest line that the first scan of `get_stream_urls` does NOT
skip: non-empty and ending in `"m3u8"`. -/
def isManifestLine (l : String) : Bool :=
  decide (¬ (l = "" ∨ ¬ pyEndsWith l "m3u8"))

/-!  ## Helper lemmas  -/

theorem getLast?_getD_cons {α : Type} (x d : α) (l : List α) :
    ((x :: l).getLast?).getD d = (l.getLast?).getD x := by
  cases l with
  | nil => rfl
  | cons y ys =>
      rw [List.getLast?_cons_cons]
      have h : (y :: ys).getLast?.isSome := by
        rw [List.getLast?_isSome]
        exact List.cons_ne_nil y ys
      obtain ⟨z, hz⟩ := Option.isSome_iff_exists.mp h
      simp [hz]

theorem best_quality_foldl (ls : List String) (init : String) :
    ls.foldl
        (fun bq decoded_url =>
          if decoded_url = "" ∨ ¬ pyEndsWith decoded_url "m3u8" then bq else decoded_url)
        init
      = ((ls.filter isManifestLine).getLast?).getD init := by
  induction ls generalizing init with
  | nil => rfl
  | cons x xs ih =>
      rw [List.foldl_cons, List.filter_cons, ih]
      by_cases hx : x = "" ∨ ¬ pyEndsWith x "m3u8"
      · have hm : isManifestLine x = false := by
          simp only [isManifestLine, decide_eq_false_iff_not, Decidable.not_not]
          exact hx
        rw [if_pos hx, hm]
        simp
      · have hm : isManifestLine x = true := by
          simp only [isManifestLine, decide_eq_true_eq]
          exact hx
        rw [if_neg hx, hm]
        simp only [if_true]
        exact (getLast?_getD_cons x init (xs.filter isManifestLine)).symm

/-- The first scan of `get_stream_urls` computes the last non-skipped
line of the manifest, defaulting to the initial `""`. -/
theorem best_quality_eq_getLast (lines : List String) :
    best_quality lines = ((lines.filter isManifestLine).getLast?).getD "" :=
  best_quality_foldl lines ""

theorem foldl_append_eq_nil {α β : Type} (f : α → List β) (ls : List α)
    (h : ∀ x ∈ ls, f x = []) :
    ls.foldl (fun acc x => acc ++ f x) [] = [] := by
  induction ls with
  | nil => rfl
  | cons x xs ih =>
      rw [List.foldl_cons, h x (List.mem_cons_self x xs), List.append_nil]
      exact ih fun y hy => h y (List.mem_cons_of_mem x hy)

/-!  ## Claims  -/

/-- Claim C5: for every board-data payload that is a non-empty sequence,
`user_profile_board_resource` returns a list of the same length whose
i-th Board has `owner = input[i].owner.username`, `url = input[i].url`,
`id = input[i].id` and `name = input[i].name`; and a non-sequence
payload fails with `ValueError("Wrong object provided")`. -/
theorem c5_board_mapping :
    (∀ items : List RawBoardRecord, items ≠ [] →
        ∃ bs, user_profile_board_resource (BoardData.list items) = .ok bs ∧
          bs.length = items.length ∧
          ∀ i : Nat,
            ((bs[i]?).map Board.owner = (items[i]?).map (fun r => r.owner.username)) ∧
            (bs[i]?).map Board.url = (items[i]?).map RawBoardRecord.url ∧
            (bs[i]?).map Board.id = (items[i]?).map RawBoardRecord.id ∧
            (bs[i]?).map Board.name = (items[i]?).map RawBoardRecord.name) ∧
    user_profile_board_resource BoardData.other
      = .error (PyError.valueError "Wrong object provided") := by
  constructor
  · intro items _
    refine ⟨_, rfl, by simp [user_profile_board_resource], ?_⟩
    intro i
    refine ⟨?_, ?_, ?_, ?_⟩ <;> simp only [List.getElem?_map] <;> cases items[i]? <;> rfl
  · rfl

/-- Claim C5 witness: a concrete one-record payload maps to one Board
with the record's fields, and a non-sequence payload raises. -/
theorem c5_board_mapping_witness :
    (user_profile_board_resource
        (BoardData.list [{ id := "1", url := "u/b", owner := { username := "u" }, name := "b" }])
      ).toOption.map List.length = some 1 ∧
    user_profile_board_resource BoardData.other
      = .error (PyError.valueError "Wrong object provided") := by
  obtain ⟨bs, hbs, hlen, -⟩ :=
    c5_board_mapping.1
      [{ id := "1", url := "u/b", owner := { username := "u" }, name := "b" }] (by decide)
  exact ⟨by rw [hbs]; simp [Except.toOption, hlen], c5_board_mapping.2⟩

/-- Claim C6: when the page state has no error and the parsed board
list is empty, `user_boards` fails with
`UserBoardException("User does not have any boards")`; when the parsed
list is non-empty it is returned unchanged. -/
theorem c6_user_boards :
    (∀ page : PageStateResult, page.error = none →
        page.boardData = BoardData.list [] →
        user_boards page
          = .error (.userBoardException "User does not have any boards")) ∧
    (∀ (page : PageStateResult) (bs : List Board), page.error = none →
        user_profile_board_resource page.boardData = .ok bs → bs ≠ [] →
        user_boards page = .ok bs) := by
  constructor
  · intro page herr hbd
    simp [user_boards, herr, hbd, user_profile_board_resource, Bind.bind, Except.bind]
  · intro page bs herr hok hne
    have hlen : bs.length > 0 := List.length_pos.mpr hne
    simp [user_boards, herr, hok, hlen, Bind.bind, Except.bind, Pure.pure, Except.pure]

/-- Claim C6 witness: a page with empty board data raises the
no-boards error; a page with one board record returns it. -/
theorem c6_user_boards_witness :
    user_boards { boardData := BoardData.list [], error := none }
      = .error (.userBoardException "User does not have any boards") ∧
    user_boards
        { boardData := BoardData.list
            [{ id := "1", url := "u/b", owner := { username := "u" }, name := "b" }],
          error := none }
      = .ok [{ id := "1", url := "u/b", owner := "u", name := "b" }] :=
  ⟨c6_user_boards.1 { boardData := BoardData.list [], error := none } rfl rfl,
   c6_user_boards.2
     { boardData := BoardData.list
         [{ id := "1", url := "u/b", owner := { username := "u" }, name := "b" }],
       error := none }
     [{ id := "1", url := "u/b", owner := "u", name := "b" }] rfl rfl (by decide)⟩

/-- Claim C8 counterexample: the claim says `make_dir` propagates every
filesystem error other than "already exists", but the code's
`except OSError: pass` swallows them all: a permission error (which is
not the already-exists error) is turned into a silent success instead
of being propagated. -/
theorem c8_counterexample :
    OSErrorKind.permissionDenied ≠ OSErrorKind.fileExists ∧
    make_dir (Except.error OSErrorKind.permissionDenied) = Except.ok () ∧
    make_dir (Except.error OSErrorKind.permissionDenied)
      ≠ Except.error OSErrorKind.permissionDenied := by
  refine ⟨by decide, rfl, by simp [make_dir]⟩

/-- Claim C8 (amended): `make_dir` ignores EVERY `OSError` from
`os.makedirs` — the already-exists error and all other filesystem
errors alike — and always returns success. -/
theorem c8_all_oserrors_swallowed (outcome : Except OSErrorKind Unit) :
    make_dir outcome = Except.ok () := by
  cases outcome <;> rfl

/-- Claim C10: calling `fetch_board` with an empty links list raises
`ValueError("Links parameter cannot be empty")`, and with non-empty
links but an empty save-folder string raises
`ValueError("Folder parameter is empty")` — in both cases before any
filesystem or network effect (the trace is empty). -/
theorem c10_empty_args_raise (links : List DownloadableResource)
    (save_folder : String) (force_download : Bool) (pathExists : String → Bool) :
    (links = [] →
        fetch_board links save_folder force_download pathExists
          = ([], some (PyError.valueError "Links parameter cannot be empty"))) ∧
    (links ≠ [] → save_folder = "" →
        fetch_board links save_folder force_download pathExists
          = ([], some (PyError.valueError "Folder parameter is empty"))) := by
  constructor
  · intro h
    simp [fetch_board, h]
  · intro h h2
    simp [fetch_board, h, h2]

/-- Claim C10 witness: concrete calls with an empty links list and with
an empty folder string each raise the corresponding `ValueError` with
an empty effect trace. -/
theorem c10_empty_args_raise_witness :
    fetch_board [] "download" false (fun _ => false)
      = ([], some (PyError.valueError "Links parameter cannot be empty")) ∧
    fetch_board [{ type := .image, id := "i", url := "u.jpg" }] "" false (fun _ => false)
      = ([], some (PyError.valueError "Folder parameter is empty")) :=
  ⟨(c10_empty_args_raise [] "download" false (fun _ => false)).1 rfl,
   (c10_empty_args_raise [{ type := .image, id := "i", url := "u.jpg" }] "" false
       (fun _ => false)).2 (by decide) rfl⟩

/-- Claim C1 counterexample: the claim covers items whose `videos` key
is "null or absent", but for an item with an `images` key and an ABSENT
`videos` key the code evaluates `res["videos"]` inside the first guard
and raises `KeyError` — no Image resource is emitted. -/
theorem c1_counterexample :
    classifyItem { id := "i1", images := some { orig := { url := "a.jpg" } }, videos := none }
      = .error PyError.keyError ∧
    classifyItem { id := "i1", images := some { orig := { url := "a.jpg" } }, videos := none }
      ≠ .ok [{ type := .image, id := "i1", url := "a.jpg" }] := by
  have h1 : classifyItem
      { id := "i1", images := some { orig := { url := "a.jpg" } }, videos := none }
      = .error PyError.keyError := rfl
  refine ⟨h1, ?_⟩
  rw [h1]
  intro h
  exact Except.noConfusion h

/-- Claim C1 (amended): for every raw feed item that has an `images`
key and whose `videos` key is PRESENT WITH VALUE NULL, the classifier
emits exactly one Image resource whose url equals the item's
`images.orig.url`.  (When `videos` is absent while `images` is present,
the code raises `KeyError` instead.) -/
theorem c1_image_when_videos_null (res : RawItem) (imgs : Images)
    (himg : res.images = some imgs) (hvid : res.videos = some none) :
    classifyItem res
      = .ok [{ type := .image, id := res.id, url := imgs.orig.url }] := by
  rcases res with ⟨i, im, vd⟩
  simp only at himg hvid
  subst himg hvid
  rfl

/-- Claim C1 witness: the spec's own example item
`{images:{orig:{url:"a.jpg"}}, videos:null}` yields exactly one Image
resource with url `"a.jpg"`. -/
theorem c1_image_when_videos_null_witness :
    classifyItem { id := "i1", images := some { orig := { url := "a.jpg" } }, videos := some none }
      = .ok [{ type := .image, id := "i1", url := "a.jpg" }] :=
  c1_image_when_videos_null
    { id := "i1", images := some { orig := { url := "a.jpg" } }, videos := some none }
    { orig := { url := "a.jpg" } } rfl rfl

/-- Claim C7: for every raw feed item with BOTH the `images` and
`videos` keys present (any values), the classifier succeeds and emits
at most one resource — never both an Image and a Video; and an item
with no `images` key and no non-null `videos` value yields no
resource. -/
theorem c7_at_most_one_resource :
    (∀ res : RawItem, res.images.isSome → res.videos.isSome →
        ∃ l, classifyItem res = .ok l ∧ l.length ≤ 1) ∧
    (∀ res : RawItem, res.images = none →
        (res.videos = none ∨ res.videos = some none) →
        classifyItem res = .ok []) := by
  constructor
  · intro res him hvd
    rcases res with ⟨i, im, vd⟩
    rcases Option.isSome_iff_exists.mp him with ⟨imgs, rfl⟩
    rcases Option.isSome_iff_exists.mp hvd with ⟨vopt, rfl⟩
    cases vopt with
    | none =>
        exact ⟨[{ type := .image, id := i, url := imgs.orig.url }], rfl, by simp⟩
    | some v =>
        exact ⟨[{ type := .video, id := i, url := v.video_list.V_HLSV4.url }], rfl, by simp⟩
  · intro res him hvd
    rcases res with ⟨i, im, vd⟩
    simp only at him
    subst him
    rcases hvd with h | h <;> simp only at h <;> subst h <;> rfl

/-- Claim C7 witness: a concrete item with both keys present (image
object, null video) yields exactly one resource; a concrete item with
neither an image nor a non-null video yields none. -/
theorem c7_at_most_one_resource_witness :
    (Except.ok
        [{ type := DownloadableResourceType.image, id := "i1", url := "a.jpg" }] :
        Except PyError (List DownloadableResource)).isOk = true ∧
    classifyItem { id := "i3", images := none, videos := none } = .ok [] := by
  constructor
  · obtain ⟨l, hl, -⟩ :=
      c7_at_most_one_resource.1
        { id := "i1", images := some { orig := { url := "a.jpg" } }, videos := some none }
        rfl rfl
    exact rfl
  · exact c7_at_most_one_resource.2 { id := "i3", images := none, videos := none } rfl (Or.inl rfl)

/-- Claim C2 counterexample: the claim says the resolver fails with a
ParseError when no manifest line ends in the primary-manifest suffix,
but `get_stream_urls` has no failure path at all: on a manifest whose
lines are only directives, the selection stays `""`, the second fetch
is issued against the original URL with an emptied final segment, and
the resolver returns its segment list normally instead of failing. -/
theorem c2_counterexample :
    best_quality ["#EXTM3U", "#EXT-X-VERSION:3"] = "" ∧
    get_stream_urls "https://h/p/pl.m3u8"
        (fun u => if u = "https://h/p/" then ["seg1.ts"] else ["#EXTM3U", "#EXT-X-VERSION:3"])
      = ["https://h/p/seg1.ts"] := by
  exact ⟨rfl, by decide⟩

/-- Claim C2 (amended): when the fetched manifest contains no non-empty
line ending in `"m3u8"`, the resolver does NOT fail: the selected line
stays the initial empty string, and it proceeds to fetch the original
URL with its final path segment replaced by the empty string and to
collect segments from that response. -/
theorem c2_no_manifest_line_proceeds (url : String) (net : String → List String)
    (h : ∀ l ∈ net url, l = "" ∨ ¬ pyEndsWith l "m3u8") :
    best_quality (net url) = "" ∧
    get_stream_urls url net
      = segment_urls (replaceLastSegment url "") (net (replaceLastSegment url "")) := by
  have hfil : (net url).filter isManifestLine = [] := by
    rw [List.filter_eq_nil_iff]
    intro l hl
    simp only [isManifestLine, decide_eq_true_eq, Decidable.not_not]
    exact h l hl
  have hbq : best_quality (net url) = "" := by
    rw [best_quality_eq_getLast, hfil]
    rfl
  exact ⟨hbq, by rw [get_stream_urls, hbq]⟩

/-- Claim C2 amended-theorem witness: on a concrete directive-only
manifest the selection is `""` and the resolver returns the segments of
the emptied-segment URL. -/
theorem c2_no_manifest_line_proceeds_witness :
    best_quality ["#EXTM3U"] = "" ∧
    replaceLastSegment "https://h/p/pl.m3u8" "" = "https://h/p/" ∧
    get_stream_urls "https://h/p/pl.m3u8"
        (fun u => if u = "https://h/p/" then ["s.ts"] else ["#EXTM3U"])
      = segment_urls (replaceLastSegment "https://h/p/pl.m3u8" "")
          ((fun u => if u = "https://h/p/" then ["s.ts"] else ["#EXTM3U"])
            (replaceLastSegment "https://h/p/pl.m3u8" "")) := by
  have h := c2_no_manifest_line_proceeds "https://h/p/pl.m3u8"
    (fun u => if u = "https://h/p/" then ["s.ts"] else ["#EXTM3U"])
    (by decide)
  exact ⟨h.1, by decide, h.2⟩

/-- Claim C3: when the manifest has at least one non-empty line ending
in `"m3u8"`, the resolver selects the LAST such line in encounter order
and proceeds with the variant URL obtained by replacing the final path
segment of the original URL with that line. -/
theorem c3_last_match_selected (url : String) (net : String → List String)
    (h : (net url).filter isManifestLine ≠ []) :
    ∃ sel, ((net url).filter isManifestLine).getLast? = some sel ∧
      best_quality (net url) = sel ∧
      get_stream_urls url net
        = segment_urls (replaceLastSegment url sel) (net (replaceLastSegment url sel)) := by
  obtain ⟨sel, hsel⟩ :=
    Option.isSome_iff_exists.mp (List.getLast?_isSome.mpr h)
  refine ⟨sel, hsel, ?_, ?_⟩
  · rw [best_quality_eq_getLast, hsel]
    rfl
  · rw [get_stream_urls, best_quality_eq_getLast, hsel]
    rfl

/-- Claim C3 witness: on the spec's example manifest
`["#EXT","360p.m3u8","720p.m3u8"]` the selected line is `"720p.m3u8"`
(the last match, not the first), and replacing the final path segment
of the playlist URL with it gives the variant URL. -/
theorem c3_last_match_selected_witness :
    best_quality ["#EXT", "360p.m3u8", "720p.m3u8"] = "720p.m3u8" ∧
    replaceLastSegment "https://h/p/pl.m3u8" "720p.m3u8" = "https://h/p/720p.m3u8" := by
  obtain ⟨sel, h1, h2, -⟩ :=
    c3_last_match_selected "https://h/p/pl.m3u8"
      (fun _ => ["#EXT", "360p.m3u8", "720p.m3u8"]) (by decide)
  have hv : (["#EXT", "360p.m3u8", "720p.m3u8"].filter isManifestLine).getLast?
      = some "720p.m3u8" := by decide
  have hsel : sel = "720p.m3u8" := (Option.some_inj.mp (hv.symm.trans h1)).symm
  exact ⟨h2.trans hsel, by decide⟩

/-- Claim C4: for a feed server whose first response carries a
non-sentinel (and non-empty, hence forwarded) bookmark `b1` and whose
response to `b1` carries bookmark `"-end-"`, the pagination loop stops
after exactly two requests — for ANY remaining fuel, so no third
request is ever issued — and returns the two pages' item arrays
concatenated in order. -/
theorem c4_two_requests (server : Option String → FeedPage)
    (p1 p2 : List RawItem) (b1 : String)
    (hend : b1 ≠ "-end-") (hne : b1 ≠ "")
    (h1 : server none = { data := p1, bookmark := b1 })
    (h2 : server (some b1) = { data := p2, bookmark := "-end-" }) :
    ∀ n : Nat, paginateAux server (n + 3) none [] = some (p1 ++ p2, 2) := by
  intro n
  have step1 : bookmarkOptions (none : Option String) = none := rfl
  have step2 : bookmarkOptions (some b1) = some b1 := by
    simp [bookmarkOptions, hne]
  simp only [paginateAux, step1, step2, h1, h2, reduceCtorEq, if_false]
  simp [hend]

/-- Claim C4 witness: a concrete two-page server is paginated with
exactly two requests and its item arrays are concatenated in order. -/
theorem c4_two_requests_witness :
    paginateAux
        (fun ob =>
          match ob with
          | none => { data := [{ id := "r1", images := none, videos := none }], bookmark := "b1" }
          | some b =>
              if b = "b1" then
                { data := [{ id := "r2", images := none, videos := none }], bookmark := "-end-" }
              else { data := [], bookmark := "other" })
        3 none []
      = some ([{ id := "r1", images := none, videos := none },
               { id := "r2", images := none, videos := none }], 2) :=
  c4_two_requests
    (fun ob =>
      match ob with
      | none => { data := [{ id := "r1", images := none, videos := none }], bookmark := "b1" }
      | some b =>
          if b = "b1" then
            { data := [{ id := "r2", images := none, videos := none }], bookmark := "-end-" }
          else { data := [], bookmark := "other" })
    [{ id := "r1", images := none, videos := none }]
    [{ id := "r2", images := none, videos := none }]
    "b1" (by decide) (by decide) rfl rfl 0

/-- Claim C9: when every resource's derived destination path already
exists and force-download is off, `fetch_board` performs no effect at
all — in particular zero media fetches (and no directory creation). -/
theorem c9_no_refetch_when_all_exist (links : List DownloadableResource)
    (save_folder : String) (pathExists : String → Bool)
    (h : ∀ r ∈ links, pathExists (save_path_for save_folder r) = true) :
    (fetch_board links save_folder false pathExists).1 = [] := by
  unfold fetch_board
  by_cases hlinks : links = []
  · simp [hlinks]
  · by_cases hfold : save_folder = ""
    · simp [hlinks, hfold]
    · simp only [hlinks, hfold, if_neg, if_false]
      have hstep : ∀ r ∈ links, fetch_board_step save_folder false pathExists r = [] := by
        intro r hr
        have hp := h r hr
        unfold fetch_board_step
        simp [hp]
      exact foldl_append_eq_nil _ links hstep

/-- Claim C9 witness: re-running on a concrete image-and-video link
list over a filesystem where every path exists, with force off,
performs no effect. -/
theorem c9_no_refetch_when_all_exist_witness :
    (fetch_board
        [{ type := .image, id := "i1", url := "http://x/a.jpg" },
         { type := .video, id := "v1", url := "http://x/b.m3u8" }]
        "download" false (fun _ => true)).1 = [] :=
  c9_no_refetch_when_all_exist
    [{ type := .image, id := "i1", url := "http://x/a.jpg" },
     { type := .video, id := "v1", url := "http://x/b.m3u8" }]
    "download" (fun _ => true) (fun _ _ => rfl)
